import Mathlib

/-!  Formal model of the NMEA GGA parsing, coordinate conversion and CSV
logging pipeline of `src/program/GPStest.py` (MicroPython).

Modelling conventions:
* Python strings are Lean `String` / `List Char`; `str.split(c)` is
  `splitOnSep c` on the character list (same semantics for one-character
  separators, including `"".split(c) == [""]`).
* The Python `float` values arising in this pipeline are produced by decimal
  literal parsing and combined only with `+`, `/` and negation, so they are
  modelled exactly as rationals `ℚ`; binary floating-point rounding error is
  not modelled.  Python `int` is modelled as `ℤ`.
* `float(s)` / `int(s)` are modelled by `pyFloat` / `pyInt` on the decimal
  grammar (optional sign, digits, one optional point).  The exotic parts of
  Python's numeric grammar (exponents, underscore grouping, inf, surrounding
  whitespace) never occur in NMEA fields and are not modelled.
* Effects (stdout, the log file) are modelled by explicit state records with
  injected fault flags standing for `OSError` situations.
-/

namespace GPStest

/-- Python `str.split(sep)` for a one-character separator, on the character
list of the string. -/
def splitOnSep (sep : Char) : List Char → List (List Char)
  | [] => [[]]
  | c :: rest =>
      if c = sep then [] :: splitOnSep sep rest
      else
        match splitOnSep sep rest with
        | [] => [[c]]
        | p :: ps => (c :: p) :: ps

/-- Numeric value of a decimal digit character. -/
def charVal (c : Char) : ℕ := c.toNat - 48

/-- ASCII decimal digit test (code points 48-57). -/
def isDigitCh (c : Char) : Bool := decide (48 ≤ c.toNat ∧ c.toNat ≤ 57)

/-- Every character of the list is a decimal digit. -/
def allDigits (l : List Char) : Bool := l.all isDigitCh

/-- Value of a digit string, most significant digit first. -/
def natOfDigits : List Char → ℕ
  | [] => 0
  | c :: cs => charVal c * 10 ^ cs.length + natOfDigits cs

/-- Value of a digit string read as the decimal fraction `0.d₁d₂…`. -/
def fracOfDigits (l : List Char) : ℚ := (natOfDigits l : ℚ) / 10 ^ l.length

/-- Model of Python `float()` on an unsigned string: digit run with one
optional decimal point, at least one digit overall (`"5."` and `".5"` parse,
`""`, `"."`, `"1.2.3"` do not). -/
def pyFloatCore (l : List Char) : Option ℚ :=
  match splitOnSep '.' l with
  | [ip] =>
      if ip ≠ [] ∧ allDigits ip = true then some ((natOfDigits ip : ℚ)) else none
  | [ip, fp] =>
      if (ip ≠ [] ∨ fp ≠ []) ∧ allDigits ip = true ∧ allDigits fp = true then
        some ((natOfDigits ip : ℚ) + fracOfDigits fp)
      else none
  | _ => none

/-- Model of Python `float()`: optional sign, then an unsigned decimal
string; returns `none` where `float()` raises `ValueError`. -/
def pyFloat (l : List Char) : Option ℚ :=
  match l with
  | [] => none
  | c :: rest =>
      if c = '-' then (pyFloatCore rest).map (fun q => -q)
      else if c = '+' then pyFloatCore rest
      else pyFloatCore (c :: rest)

/-- Model of Python `int()`: optional sign then a nonempty digit run;
returns `none` where `int()` raises `ValueError`. -/
def pyInt (l : List Char) : Option ℤ :=
  match l with
  | [] => none
  | c :: rest =>
      if c = '-' then
        if rest ≠ [] ∧ allDigits rest = true then some (-(natOfDigits rest : ℤ))
        else none
      else if c = '+' then
        if rest ≠ [] ∧ allDigits rest = true then some ((natOfDigits rest : ℤ))
        else none
      else
        if allDigits (c :: rest) = true then some ((natOfDigits (c :: rest) : ℤ))
        else none

/-- Embedding of `convert_nmea_coord` (GPStest.py lines 48-72): NMEA
degrees-minutes string plus hemisphere letter to signed decimal degrees;
`none` models every path on which the Python function returns `None`
(empty argument, split not yielding exactly two parts, or a `float()`
failure caught by the `except` clause). -/
def convert_nmea_coord (raw_coord direction : String) : Option ℚ :=
  if raw_coord.data = [] ∨ direction.data = [] then none
  else
    match splitOnSep '.' raw_coord.data with
    | [p0, p1] =>
        let degMin : Option (ℚ × ℚ) :=
          if 2 < p0.length then
            match pyFloat (p0.take (p0.length - 2)),
                  pyFloat (p0.drop (p0.length - 2) ++ '.' :: p1) with
            | some d, some m => some (d, m)
            | _, _ => none
          else
            match pyFloat p0, pyFloat ('0' :: '.' :: p1) with
            | some d, some m => some (d, m)
            | _, _ => none
        match degMin with
        | none => none
        | some (d, m) =>
            let value := d + m / 60
            some (if direction = "S" ∨ direction = "W" then -value else value)
    | _ => none

/-- Unsigned magnitude computed by `convert_nmea_coord` for a digit string
split as `p0 ++ "." ++ p1`: the source's degrees/minutes split policy. -/
def nmeaMagnitude (p0 p1 : List Char) : ℚ :=
  if 2 < p0.length then
    (natOfDigits (p0.take (p0.length - 2)) : ℚ) +
      ((natOfDigits (p0.drop (p0.length - 2)) : ℚ) + fracOfDigits p1) / 60
  else (natOfDigits p0 : ℚ) + fracOfDigits p1 / 60

/-! ### Rounding, records, sinks and the per-line pipeline

The main loop of GPStest.py (lines 82-174) reads one line per iteration and
processes it independently.  `processLine` models the body for one decoded,
stripped line.  Stdout and the log file are modelled by `PipeState`; the
Boolean fault flags stand for `OSError` being raised by the corresponding
operation.  Python's `round(x, n)` and `f"{x:.nf}"` formatting both round to
`n` decimal places half-to-even; they are modelled exactly on rationals. -/

/-- Round-half-to-even to an integer, as Python `round()`. -/
def roundHalfEven (q : ℚ) : ℤ :=
  if Int.fract q = 1 / 2 then (if ⌊q⌋ % 2 = 0 then ⌊q⌋ else ⌊q⌋ + 1)
  else round q

/-- Round to `n` decimal places, as Python `round(x, n)` / `f"{x:.nf}"`. -/
def roundTo (n : ℕ) (q : ℚ) : ℚ := (roundHalfEven (q * 10 ^ n) : ℚ) / 10 ^ n

/-- File name of the CSV log (GPStest.py line 9). -/
def CSV_FILENAME : String := "gps_log.csv"

/-- Configuration flag: emit JSON to the REPL (GPStest.py line 12). -/
def SERIAL_OUTPUT_TO_REPL : Bool := true

/-- Configuration flag: record to the CSV file (GPStest.py line 13). -/
def RECORD_TO_CSV : Bool := true

/-- Header text written on CSV file creation (GPStest.py line 42). -/
def CSV_HEADER : String :=
  "Timestamp,Latitude,Longitude,Altitude,Satellites,GPS_Quality,HDOP"

/-- One fix, as assembled by the GNGGA/GPGGA branch of the main loop.  The
timestamp is the wall clock sampled at assembly time (`time.time()`), not the
NMEA UTC field; the UTC field is used for display only and is not retained. -/
structure FixRecord where
  timestamp : ℚ
  latitude : ℚ
  longitude : ℚ
  altitude : ℚ
  num_satellites : ℤ
  gps_quality : ℤ
  hdop : ℚ
deriving DecidableEq

/-- The JSON object written to stdout (GPStest.py lines 130-140); field
values after the source's rounding. -/
structure GpsMsg where
  typ : String
  latitude : ℚ
  longitude : ℚ
  timestamp : ℚ
  altitude : ℚ
  num_satellites : ℤ
  gps_quality : ℤ
  hdop : ℚ
deriving DecidableEq

/-- One CSV data line (GPStest.py lines 145-149); field values after the
source's `.6f` / `.1f` formatting. -/
structure CsvRow where
  timestamp : ℚ
  latitude : ℚ
  longitude : ℚ
  altitude : ℚ
  num_satellites : ℤ
  gps_quality : ℤ
  hdop : ℚ
deriving DecidableEq

/-- A line of the log file: the header, or one data row. -/
inductive CsvLine
  | header
  | row (r : CsvRow)
deriving DecidableEq

/-- State of the log file: `none` when the file does not exist, otherwise its
lines.  `appendOk` / `createOk` inject `OSError` into the next append /
create attempt (they model the storage, not the program). -/
structure FS where
  file : Option (List CsvLine)
  appendOk : Bool
  createOk : Bool
deriving DecidableEq

/-- Console messages relevant to the claims (the `print` calls of
GPStest.py); purely informational prints of a fix are not modelled. -/
inductive LogEvent
  | infoExistingFile
  | infoNewFile
  | fileCreateError
  | csvWriteError
  | csvRecreateError
  | warnIncomplete (raw : String)
  | parseError (raw : String)
  | statusNoFix (num_satellites gps_quality : ℤ)
  | unexpectedError
deriving DecidableEq

/-- Result of `ensure_file_exists`. -/
structure EnsureResult where
  fs : FS
  ok : Bool
  events : List LogEvent
deriving DecidableEq

/-- Embedding of `ensure_file_exists` (GPStest.py lines 32-46): `os.stat`
succeeds iff the file exists; if missing, the file is created holding only
the header; a creation `OSError` is caught and reported by returning
`false`. -/
def ensure_file_exists (fs : FS) : EnsureResult :=
  match fs.file with
  | some _ => ⟨fs, true, [LogEvent.infoExistingFile]⟩
  | none =>
      if fs.createOk then
        ⟨{ fs with file := some [CsvLine.header] }, true, [LogEvent.infoNewFile]⟩
      else
        ⟨fs, false, [LogEvent.infoNewFile, LogEvent.fileCreateError]⟩

/-- Result of the CSV sink for one record. -/
structure CsvResult where
  fs : FS
  appended : Bool
  events : List LogEvent
deriving DecidableEq

/-- Embedding of the CSV write of the main loop (GPStest.py lines 144-156):
`open(..., "a")` creates a missing file (without header) and appends; on
`OSError` the error is logged, `ensure_file_exists` is re-run, a second
error is logged if that also fails, and the failed line is not re-appended. -/
def csvAppend (fs : FS) (r : CsvRow) : CsvResult :=
  if fs.appendOk then
    match fs.file with
    | some ls => ⟨{ fs with file := some (ls ++ [CsvLine.row r]) }, true, []⟩
    | none => ⟨{ fs with file := some [CsvLine.row r] }, true, []⟩
  else
    let e := ensure_file_exists fs
    ⟨e.fs, false,
      LogEvent.csvWriteError ::
        (e.events ++ if e.ok then [] else [LogEvent.csvRecreateError])⟩

/-- Per-iteration state: whether a stdout write would succeed, and the log
file state. -/
structure PipeState where
  stdoutOk : Bool
  fs : FS
deriving DecidableEq

/-- How one decoded line was handled. -/
inductive Outcome
  | notGGA
  | shortLine
  | parseErr
  | noFix (num_satellites gps_quality : ℤ)
  | fix (r : FixRecord)
deriving DecidableEq

/-- Everything one iteration of the main loop produced for one line. -/
structure LineResult where
  outcome : Outcome
  json : Option GpsMsg
  csvAppended : Bool
  events : List LogEvent
  state : PipeState
  outerException : Bool
deriving DecidableEq

/-- The JSON object built at GPStest.py lines 130-139. -/
def mkGpsMsg (now lat lon alt : ℚ) (sats gq : ℤ) (hd : ℚ) : GpsMsg :=
  ⟨"gps", roundTo 6 lat, roundTo 6 lon, now, roundTo 1 alt, sats, gq, roundTo 1 hd⟩

/-- The CSV line built at GPStest.py lines 145-149. -/
def mkCsvRow (now lat lon alt : ℚ) (sats gq : ℤ) (hd : ℚ) : CsvRow :=
  ⟨now, roundTo 6 lat, roundTo 6 lon, roundTo 1 alt, sats, gq, roundTo 1 hd⟩

/-- Field extraction of GPStest.py lines 101-104: `int(s) if s else 0` and
`float(s) if s else 0.0`. -/
def intFieldOr0 (l : List Char) : Option ℤ :=
  if l = [] then some 0 else pyInt l

/-- Same for the float fields (HDOP, altitude). -/
def floatFieldOr0 (l : List Char) : Option ℚ :=
  if l = [] then some 0 else pyFloat l

/-- Typed extraction of quality, satellite count, HDOP and altitude
(GPStest.py lines 101-104); `none` when a conversion raises `ValueError`,
which the `except` at line 162 turns into a parse-error report. -/
def parseGGAFields (parts : List (List Char)) : Option (ℤ × ℤ × ℚ × ℚ) :=
  match intFieldOr0 (parts.getD 6 []), intFieldOr0 (parts.getD 7 []),
        floatFieldOr0 (parts.getD 8 []), floatFieldOr0 (parts.getD 9 []) with
  | some gq, some ns, some hd, some al => some (gq, ns, hd, al)
  | _, _, _, _ => none

/-- Embedding of the main-loop body for one decoded, stripped line
(GPStest.py lines 90-165, plus the surrounding handlers at 162-171).
A failing stdout write (`st.stdoutOk = false` with the serial flag on)
models `sys.stdout.write` raising `OSError`: that exception is not in the
inner `except (ValueError, IndexError, TypeError)` tuple, so it reaches the
loop's outer `except Exception` handler and the CSV write is skipped. -/
def processLine (serialFlag recordFlag : Bool) (now : ℚ) (st : PipeState)
    (line : String) : LineResult :=
  if ("$GNGGA".data.isPrefixOf line.data || "$GPGGA".data.isPrefixOf line.data) then
    let parts := splitOnSep ',' line.data
    if 15 ≤ parts.length then
      match parseGGAFields parts with
      | some (gps_quality, num_satellites, hdop, altitude) =>
          let lat := convert_nmea_coord ⟨parts.getD 2 []⟩ ⟨parts.getD 3 []⟩
          let lon := convert_nmea_coord ⟨parts.getD 4 []⟩ ⟨parts.getD 5 []⟩
          match lat, lon with
          | some la, some lo =>
              let r : FixRecord :=
                ⟨now, la, lo, altitude, num_satellites, gps_quality, hdop⟩
              if serialFlag && !st.stdoutOk then
                ⟨Outcome.fix r, none, false, [LogEvent.unexpectedError], st, true⟩
              else
                let json := if serialFlag then
                    some (mkGpsMsg now la lo altitude num_satellites gps_quality hdop)
                  else none
                if recordFlag then
                  let c := csvAppend st.fs
                    (mkCsvRow now la lo altitude num_satellites gps_quality hdop)
                  ⟨Outcome.fix r, json, c.appended, c.events,
                    ⟨st.stdoutOk, c.fs⟩, false⟩
                else ⟨Outcome.fix r, json, false, [], st, false⟩
          | _, _ =>
              ⟨Outcome.noFix num_satellites gps_quality, none, false,
                [LogEvent.statusNoFix num_satellites gps_quality], st, false⟩
      | none => ⟨Outcome.parseErr, none, false, [LogEvent.parseError line], st, false⟩
    else ⟨Outcome.shortLine, none, false, [LogEvent.warnIncomplete line], st, false⟩
  else ⟨Outcome.notGGA, none, false, [], st, false⟩

/-- The acquisition loop over a list of decoded lines, threading the state. -/
def runLines (serialFlag recordFlag : Bool) (now : ℚ) :
    PipeState → List String → PipeState × List LineResult
  | st, [] => (st, [])
  | st, l :: ls =>
      let r := processLine serialFlag recordFlag now st l
      let rest := runLines serialFlag recordFlag now r.state ls
      (rest.1, r :: rest.2)

/-- The end-to-end sample sentence of the test plan. -/
def sampleLine : String :=
  "$GNGGA,123519,4807.038,N,01131.000,E,1,08,0.9,545.4,M,46.9,M,,*47"

/-- The same sentence with the fix-quality field set to 0. -/
def sampleLineQ0 : String :=
  "$GNGGA,123519,4807.038,N,01131.000,E,0,08,0.9,545.4,M,46.9,M,,*47"

/-! ### Basic facts about digit strings and splitting -/

theorem splitOnSep_ne_nil (sep : Char) : ∀ l : List Char, splitOnSep sep l ≠ []
  | [] => by simp [splitOnSep]
  | c :: rest => by
      by_cases hc : c = sep
      · simp [splitOnSep, hc]
      · cases h2 : splitOnSep sep rest <;> simp [splitOnSep, hc, h2]

theorem splitOnSep_of_not_mem (sep : Char) :
    ∀ l : List Char, sep ∉ l → splitOnSep sep l = [l]
  | [], _ => rfl
  | c :: rest, h => by
      simp only [List.mem_cons, not_or] at h
      have hc : ¬ (c = sep) := fun e => h.1 e.symm
      have hr := splitOnSep_of_not_mem sep rest h.2
      simp [splitOnSep, hc, hr]

theorem splitOnSep_append_sep (sep : Char) :
    ∀ l1 l2 : List Char, sep ∉ l1 →
      splitOnSep sep (l1 ++ sep :: l2) = l1 :: splitOnSep sep l2
  | [], l2, _ => by simp [splitOnSep]
  | c :: cs, l2, h => by
      simp only [List.mem_cons, not_or] at h
      have hc : ¬ (c = sep) := fun e => h.1 e.symm
      have hr := splitOnSep_append_sep sep cs l2 h.2
      simp [splitOnSep, hc, hr]

theorem isDigitCh_bounds {c : Char} (h : isDigitCh c = true) :
    48 ≤ c.toNat ∧ c.toNat ≤ 57 := by
  simpa [isDigitCh] using h

theorem charVal_le_nine {c : Char} (h : isDigitCh c = true) : charVal c ≤ 9 := by
  have hb := isDigitCh_bounds h
  unfold charVal
  omega

theorem isDigitCh_ne {c : Char} (h : isDigitCh c = true) :
    c ≠ '.' ∧ c ≠ '-' ∧ c ≠ '+' := by
  have hb := isDigitCh_bounds h
  refine ⟨?_, ?_, ?_⟩ <;> rintro rfl <;> exact absurd hb (by decide)

theorem allDigits_forall {l : List Char} (h : allDigits l = true) :
    ∀ c ∈ l, isDigitCh c = true := by
  simpa [allDigits, List.all_eq_true] using h

theorem allDigits_of_forall {l : List Char} (h : ∀ c ∈ l, isDigitCh c = true) :
    allDigits l = true := by
  simpa [allDigits, List.all_eq_true] using h

theorem allDigits_cons_tail {c : Char} {cs : List Char}
    (h : allDigits (c :: cs) = true) : allDigits cs = true :=
  allDigits_of_forall fun x hx => allDigits_forall h x (List.mem_cons_of_mem c hx)

theorem allDigits_dot_not_mem {l : List Char} (h : allDigits l = true) : '.' ∉ l :=
  fun hm => (isDigitCh_ne (allDigits_forall h _ hm)).1 rfl

theorem allDigits_take {l : List Char} (n : ℕ) (h : allDigits l = true) :
    allDigits (l.take n) = true :=
  allDigits_of_forall fun c hc => allDigits_forall h c (List.take_subset n l hc)

theorem allDigits_drop {l : List Char} (n : ℕ) (h : allDigits l = true) :
    allDigits (l.drop n) = true :=
  allDigits_of_forall fun c hc => allDigits_forall h c (List.drop_subset n l hc)

theorem natOfDigits_lt {l : List Char} (h : allDigits l = true) :
    natOfDigits l < 10 ^ l.length := by
  induction l with
  | nil => simp [natOfDigits]
  | cons c cs ih =>
      have hc : isDigitCh c = true := allDigits_forall h c (List.mem_cons_self c cs)
      have h9 := charVal_le_nine hc
      have hlt := ih (allDigits_cons_tail h)
      have hmul : charVal c * 10 ^ cs.length ≤ 9 * 10 ^ cs.length :=
        Nat.mul_le_mul_right _ h9
      calc charVal c * 10 ^ cs.length + natOfDigits cs
          < charVal c * 10 ^ cs.length + 10 ^ cs.length := by omega
        _ ≤ 9 * 10 ^ cs.length + 10 ^ cs.length := by omega
        _ = 10 ^ (c :: cs).length := by
            simp [List.length_cons, pow_succ]; ring

theorem fracOfDigits_nonneg (l : List Char) : 0 ≤ fracOfDigits l := by
  unfold fracOfDigits
  positivity

theorem fracOfDigits_lt_one {l : List Char} (h : allDigits l = true) :
    fracOfDigits l < 1 := by
  unfold fracOfDigits
  rw [div_lt_one (by positivity)]
  exact_mod_cast natOfDigits_lt h

/-! ### `pyFloat` on digit strings -/

theorem pyFloatCore_digits {l : List Char} (hne : l ≠ []) (h : allDigits l = true) :
    pyFloatCore l = some ((natOfDigits l : ℚ)) := by
  unfold pyFloatCore
  rw [splitOnSep_of_not_mem '.' l (allDigits_dot_not_mem h)]
  simp [hne, h]

theorem pyFloatCore_digits_dot {l1 l2 : List Char} (h1 : allDigits l1 = true)
    (h2 : allDigits l2 = true) (hne : l1 ≠ [] ∨ l2 ≠ []) :
    pyFloatCore (l1 ++ '.' :: l2) = some ((natOfDigits l1 : ℚ) + fracOfDigits l2) := by
  unfold pyFloatCore
  rw [splitOnSep_append_sep '.' l1 l2 (allDigits_dot_not_mem h1),
      splitOnSep_of_not_mem '.' l2 (allDigits_dot_not_mem h2)]
  rcases hne with hne | hne <;> simp [hne, h1, h2]

theorem pyFloat_digits {l : List Char} (hne : l ≠ []) (h : allDigits l = true) :
    pyFloat l = some ((natOfDigits l : ℚ)) := by
  match l, hne with
  | c :: cs, _ =>
    have hc := isDigitCh_ne (allDigits_forall h c (List.mem_cons_self c cs))
    simp only [pyFloat]
    rw [if_neg hc.2.1, if_neg hc.2.2]
    exact pyFloatCore_digits (by simp) h

theorem pyFloat_digits_dot {l1 l2 : List Char} (hne : l1 ≠ [])
    (h1 : allDigits l1 = true) (h2 : allDigits l2 = true) :
    pyFloat (l1 ++ '.' :: l2) = some ((natOfDigits l1 : ℚ) + fracOfDigits l2) := by
  match l1, hne with
  | c :: cs, hne =>
    have hc := isDigitCh_ne (allDigits_forall h1 c (List.mem_cons_self c cs))
    rw [List.cons_append]
    simp only [pyFloat]
    rw [if_neg hc.2.1, if_neg hc.2.2]
    rw [← List.cons_append]
    exact pyFloatCore_digits_dot h1 h2 (Or.inl hne)

theorem pyFloat_zero_dot {l : List Char} (h : allDigits l = true) :
    pyFloat ('0' :: '.' :: l) = some (fracOfDigits l) := by
  have h0 : allDigits ['0'] = true := by decide
  have hz : natOfDigits ['0'] = 0 := by decide
  have := @pyFloat_digits_dot ['0'] l (by simp) h0 h
  simpa [hz] using this

/-- Behaviour of `convert_nmea_coord` on an all-digit magnitude string with
exactly one decimal point: it returns the degrees/minutes magnitude, negated
for hemispheres `S` and `W`; an empty integer part is a `float("")` failure,
hence `None`. -/
theorem convert_nmea_coord_digits (p0 p1 : List Char) (dir : String)
    (h0 : allDigits p0 = true) (h1 : allDigits p1 = true) (hdir : dir.data ≠ []) :
    convert_nmea_coord ⟨p0 ++ '.' :: p1⟩ dir =
      if p0 = [] then none
      else
        some (if dir = "S" ∨ dir = "W" then -(nmeaMagnitude p0 p1)
              else nmeaMagnitude p0 p1) := by
  unfold convert_nmea_coord
  rw [if_neg (by simp [hdir])]
  show (match splitOnSep '.' (p0 ++ '.' :: p1) with
        | [p0, p1] => _
        | _ => none) = _
  rw [splitOnSep_append_sep '.' p0 p1 (allDigits_dot_not_mem h0),
      splitOnSep_of_not_mem '.' p1 (allDigits_dot_not_mem h1)]
  by_cases hp0 : p0 = []
  · subst hp0
    simp [pyFloat, nmeaMagnitude]
  · rw [if_neg hp0]
    by_cases hlen : 2 < p0.length
    · have htake : p0.take (p0.length - 2) ≠ [] := by
        intro e
        rcases List.take_eq_nil_iff.mp e with e | e
        · omega
        · exact hp0 e
      have hdrop : p0.drop (p0.length - 2) ≠ [] := by
        intro e
        have := List.drop_eq_nil_iff.mp e
        omega
      simp only [if_pos hlen,
        pyFloat_digits htake (allDigits_take _ h0),
        pyFloat_digits_dot hdrop (allDigits_drop _ h0) h1,
        nmeaMagnitude]
    · simp only [if_neg hlen, pyFloat_digits hp0 h0, pyFloat_zero_dot h1,
        nmeaMagnitude]

/-! ### Behaviour of `processLine` on the main paths, and sample sentences -/

/-- Value of `processLine` on the fix path: classified sentence, enough
fields, all field conversions succeed, both coordinates non-null, stdout
healthy.  The sinks run in source order (JSON, then CSV). -/
theorem processLine_fix (serialFlag recordFlag : Bool) (now : ℚ) (st : PipeState)
    (line : String) (gq ns : ℤ) (hd al la lo : ℚ)
    (hpre : ("$GNGGA".data.isPrefixOf line.data ||
      "$GPGGA".data.isPrefixOf line.data) = true)
    (hlen : 15 ≤ (splitOnSep ',' line.data).length)
    (hf : parseGGAFields (splitOnSep ',' line.data) = some (gq, ns, hd, al))
    (hla : convert_nmea_coord ⟨(splitOnSep ',' line.data).getD 2 []⟩
        ⟨(splitOnSep ',' line.data).getD 3 []⟩ = some la)
    (hlo : convert_nmea_coord ⟨(splitOnSep ',' line.data).getD 4 []⟩
        ⟨(splitOnSep ',' line.data).getD 5 []⟩ = some lo)
    (hstd : st.stdoutOk = true) :
    processLine serialFlag recordFlag now st line =
      ⟨Outcome.fix ⟨now, la, lo, al, ns, gq, hd⟩,
       (if serialFlag then some (mkGpsMsg now la lo al ns gq hd) else none),
       (if recordFlag then
          (csvAppend st.fs (mkCsvRow now la lo al ns gq hd)).appended
        else false),
       (if recordFlag then
          (csvAppend st.fs (mkCsvRow now la lo al ns gq hd)).events
        else []),
       (if recordFlag then
          ⟨st.stdoutOk, (csvAppend st.fs (mkCsvRow now la lo al ns gq hd)).fs⟩
        else st),
       false⟩ := by
  simp only [processLine, hpre, hf, hla, hlo, hstd, if_true, Bool.not_true,
    Bool.and_false, Bool.false_eq_true, if_false, hlen]
  by_cases hr : recordFlag = true <;> simp [hr, hstd]

/-- Value of `processLine` on the fix path when the stdout write fails: the
`OSError` escapes to the loop's outer handler and the CSV write is skipped. -/
theorem processLine_stdout_fail (recordFlag : Bool) (now : ℚ) (st : PipeState)
    (line : String) (gq ns : ℤ) (hd al la lo : ℚ)
    (hpre : ("$GNGGA".data.isPrefixOf line.data ||
      "$GPGGA".data.isPrefixOf line.data) = true)
    (hlen : 15 ≤ (splitOnSep ',' line.data).length)
    (hf : parseGGAFields (splitOnSep ',' line.data) = some (gq, ns, hd, al))
    (hla : convert_nmea_coord ⟨(splitOnSep ',' line.data).getD 2 []⟩
        ⟨(splitOnSep ',' line.data).getD 3 []⟩ = some la)
    (hlo : convert_nmea_coord ⟨(splitOnSep ',' line.data).getD 4 []⟩
        ⟨(splitOnSep ',' line.data).getD 5 []⟩ = some lo)
    (hstd : st.stdoutOk = false) :
    processLine true recordFlag now st line =
      ⟨Outcome.fix ⟨now, la, lo, al, ns, gq, hd⟩, none, false,
        [LogEvent.unexpectedError], st, true⟩ := by
  simp only [processLine, hpre, hf, hla, hlo, hstd, if_true, Bool.not_false,
    Bool.and_true, hlen]

theorem sampleLine_split : splitOnSep ',' sampleLine.data =
    ["$GNGGA".data, "123519".data, "4807.038".data, "N".data, "01131.000".data,
     "E".data, "1".data, "08".data, "0.9".data, "545.4".data, "M".data,
     "46.9".data, "M".data, [], "*47".data] := by decide

theorem sampleLineQ0_split : splitOnSep ',' sampleLineQ0.data =
    ["$GNGGA".data, "123519".data, "4807.038".data, "N".data, "01131.000".data,
     "E".data, "0".data, "08".data, "0.9".data, "545.4".data, "M".data,
     "46.9".data, "M".data, [], "*47".data] := by decide

theorem convert_sample_lat :
    convert_nmea_coord "4807.038" "N" = some (481173 / 10000) := by
  simp +decide [convert_nmea_coord, splitOnSep, pyFloat, pyFloatCore, allDigits,
    isDigitCh, natOfDigits, fracOfDigits, charVal]
  norm_num

theorem convert_sample_lon :
    convert_nmea_coord "01131.000" "E" = some (691 / 60) := by
  simp +decide [convert_nmea_coord, splitOnSep, pyFloat, pyFloatCore, allDigits,
    isDigitCh, natOfDigits, fracOfDigits, charVal]
  norm_num

theorem sampleLine_fields :
    parseGGAFields (splitOnSep ',' sampleLine.data) =
      some (1, 8, 9 / 10, 2727 / 5) := by
  rw [sampleLine_split]
  simp +decide [parseGGAFields, intFieldOr0, floatFieldOr0, pyInt, pyFloat,
    pyFloatCore, splitOnSep, allDigits, isDigitCh, natOfDigits, fracOfDigits,
    charVal]
  norm_num

theorem sampleLineQ0_fields :
    parseGGAFields (splitOnSep ',' sampleLineQ0.data) =
      some (0, 8, 9 / 10, 2727 / 5) := by
  rw [sampleLineQ0_split]
  simp +decide [parseGGAFields, intFieldOr0, floatFieldOr0, pyInt, pyFloat,
    pyFloatCore, splitOnSep, allDigits, isDigitCh, natOfDigits, fracOfDigits,
    charVal]
  norm_num

theorem sampleLine_lat :
    convert_nmea_coord ⟨(splitOnSep ',' sampleLine.data).getD 2 []⟩
      ⟨(splitOnSep ',' sampleLine.data).getD 3 []⟩ = some (481173 / 10000) := by
  rw [sampleLine_split]
  exact convert_sample_lat

theorem sampleLine_lon :
    convert_nmea_coord ⟨(splitOnSep ',' sampleLine.data).getD 4 []⟩
      ⟨(splitOnSep ',' sampleLine.data).getD 5 []⟩ = some (691 / 60) := by
  rw [sampleLine_split]
  exact convert_sample_lon

theorem sampleLineQ0_lat :
    convert_nmea_coord ⟨(splitOnSep ',' sampleLineQ0.data).getD 2 []⟩
      ⟨(splitOnSep ',' sampleLineQ0.data).getD 3 []⟩ = some (481173 / 10000) := by
  rw [sampleLineQ0_split]
  exact convert_sample_lat

theorem sampleLineQ0_lon :
    convert_nmea_coord ⟨(splitOnSep ',' sampleLineQ0.data).getD 4 []⟩
      ⟨(splitOnSep ',' sampleLineQ0.data).getD 5 []⟩ = some (691 / 60) := by
  rw [sampleLineQ0_split]
  exact convert_sample_lon

/-! ### Claim theorems -/

/-- C1: for the input line
`$GNGGA,123519,4807.038,N,01131.000,E,1,08,0.9,545.4,M,46.9,M,,*47` the
per-line pipeline produces a fix record with latitude 48.1173 (within 1e-6
of 48.117300), longitude 691/60 (within 1e-4 of 11.5167), altitude 545.4,
8 satellites, quality 1 and HDOP 0.9, and with both sinks enabled (the
source configuration) it emits exactly one structured JSON message on
stdout and appends exactly one CSV log line. -/
theorem end_to_end_sample_line :
    processLine SERIAL_OUTPUT_TO_REPL RECORD_TO_CSV 0
        ⟨true, ⟨some [CsvLine.header], true, true⟩⟩ sampleLine =
      ⟨Outcome.fix ⟨0, 481173 / 10000, 691 / 60, 2727 / 5, 8, 1, 9 / 10⟩,
        some ⟨"gps", 481173 / 10000, 11516667 / 1000000, 0, 2727 / 5, 8, 1, 9 / 10⟩,
        true, [],
        ⟨true, ⟨some [CsvLine.header,
            CsvLine.row ⟨0, 481173 / 10000, 11516667 / 1000000, 2727 / 5, 8, 1, 9 / 10⟩],
          true, true⟩⟩,
        false⟩ ∧
    |(481173 / 10000 : ℚ) - 48117300 / 1000000| < 1 / 1000000 ∧
    |(691 / 60 : ℚ) - 115167 / 10000| < 1 / 10000 := by
  refine ⟨?_, by rw [abs_sub_lt_iff]; constructor <;> norm_num,
    by rw [abs_sub_lt_iff]; constructor <;> norm_num⟩
  rw [processLine_fix _ _ _ _ _ 1 8 (9 / 10) (2727 / 5) (481173 / 10000) (691 / 60)
      (by decide) (by decide) sampleLine_fields sampleLine_lat sampleLine_lon rfl]
  simp [SERIAL_OUTPUT_TO_REPL, RECORD_TO_CSV, csvAppend, mkGpsMsg, mkCsvRow]
  norm_num [roundTo, roundHalfEven, Int.fract, round_eq]

/-- C2: on a magnitude string that splits on the decimal point into an
all-digit integer part `p0` and fractional part `p1`, the converter applies
the split policy: with more than 2 integer digits the last two digits are
the minutes integer part and the remaining leading digits the degrees; with
2 or fewer digits the whole integer part is degrees and the minutes integer
part is 0; the result is degrees + minutes/60.  In particular
`"01131.000"` converts to 691/60 ≈ 11.516667. -/
theorem convert_split_policy (p0 p1 : List Char) (dir : String)
    (h0 : allDigits p0 = true) (h0n : p0 ≠ []) (h1 : allDigits p1 = true)
    (hdir : dir.data ≠ []) (hsign : ¬ (dir = "S" ∨ dir = "W")) :
    (2 < p0.length →
      convert_nmea_coord ⟨p0 ++ '.' :: p1⟩ dir =
        some ((natOfDigits (p0.take (p0.length - 2)) : ℚ) +
          ((natOfDigits (p0.drop (p0.length - 2)) : ℚ) + fracOfDigits p1) / 60)) ∧
    (p0.length ≤ 2 →
      convert_nmea_coord ⟨p0 ++ '.' :: p1⟩ dir =
        some ((natOfDigits p0 : ℚ) + fracOfDigits p1 / 60)) ∧
    convert_nmea_coord "01131.000" "E" = some (691 / 60) ∧
    |(691 / 60 : ℚ) - 11516667 / 1000000| < 1 / 1000000 := by
  have h := convert_nmea_coord_digits p0 p1 dir h0 h1 hdir
  rw [if_neg h0n, if_neg hsign] at h
  refine ⟨?_, ?_, convert_sample_lon,
    by rw [abs_sub_lt_iff]; constructor <;> norm_num⟩
  · intro hl
    rw [h]
    simp [nmeaMagnitude, hl]
  · intro hl
    rw [h]
    simp [nmeaMagnitude, Nat.not_lt.mpr hl]

/-- Witness for C2 at `"12.5"` (two integer digits, so the short branch). -/
theorem convert_split_policy_witness :
    (2 < (['1', '2'] : List Char).length →
      convert_nmea_coord ⟨['1', '2'] ++ '.' :: ['5']⟩ "N" =
        some ((natOfDigits ((['1', '2'] : List Char).take
            ((['1', '2'] : List Char).length - 2)) : ℚ) +
          ((natOfDigits ((['1', '2'] : List Char).drop
            ((['1', '2'] : List Char).length - 2)) : ℚ) + fracOfDigits ['5']) / 60)) ∧
    ((['1', '2'] : List Char).length ≤ 2 →
      convert_nmea_coord ⟨['1', '2'] ++ '.' :: ['5']⟩ "N" =
        some ((natOfDigits ['1', '2'] : ℚ) + fracOfDigits ['5'] / 60)) ∧
    convert_nmea_coord "01131.000" "E" = some (691 / 60) ∧
    |(691 / 60 : ℚ) - 11516667 / 1000000| < 1 / 1000000 :=
  convert_split_policy ['1', '2'] ['5'] "N" (by decide) (by decide) (by decide)
    (by decide) (by decide)

/-- C3: for an all-digit DDMM.MMMMM magnitude string (4 integer digits),
the converter returns a non-negative value for hemisphere N or E and a
non-positive value for S or W. -/
theorem convert_hemisphere_sign (p0 p1 : List Char)
    (h0 : allDigits p0 = true) (hlen : p0.length = 4) (h1 : allDigits p1 = true) :
    (∃ v, convert_nmea_coord ⟨p0 ++ '.' :: p1⟩ "N" = some v ∧ 0 ≤ v) ∧
    (∃ v, convert_nmea_coord ⟨p0 ++ '.' :: p1⟩ "E" = some v ∧ 0 ≤ v) ∧
    (∃ v, convert_nmea_coord ⟨p0 ++ '.' :: p1⟩ "S" = some v ∧ v ≤ 0) ∧
    (∃ v, convert_nmea_coord ⟨p0 ++ '.' :: p1⟩ "W" = some v ∧ v ≤ 0) := by
  have hne : p0 ≠ [] := by
    intro e
    rw [e] at hlen
    simp at hlen
  have hmag : 0 ≤ nmeaMagnitude p0 p1 := by
    unfold nmeaMagnitude
    split
    · exact add_nonneg (Nat.cast_nonneg _)
        (div_nonneg (add_nonneg (Nat.cast_nonneg _) (fracOfDigits_nonneg p1))
          (by norm_num))
    · exact add_nonneg (Nat.cast_nonneg _)
        (div_nonneg (fracOfDigits_nonneg p1) (by norm_num))
  refine ⟨⟨nmeaMagnitude p0 p1, ?_, hmag⟩, ⟨nmeaMagnitude p0 p1, ?_, hmag⟩,
    ⟨-(nmeaMagnitude p0 p1), ?_, by linarith⟩,
    ⟨-(nmeaMagnitude p0 p1), ?_, by linarith⟩⟩
  · rw [convert_nmea_coord_digits p0 p1 "N" h0 h1 (by decide), if_neg hne,
      if_neg (by decide : ¬ (("N" : String) = "S" ∨ ("N" : String) = "W"))]
  · rw [convert_nmea_coord_digits p0 p1 "E" h0 h1 (by decide), if_neg hne,
      if_neg (by decide : ¬ (("E" : String) = "S" ∨ ("E" : String) = "W"))]
  · rw [convert_nmea_coord_digits p0 p1 "S" h0 h1 (by decide), if_neg hne,
      if_pos (by decide : (("S" : String) = "S" ∨ ("S" : String) = "W"))]
  · rw [convert_nmea_coord_digits p0 p1 "W" h0 h1 (by decide), if_neg hne,
      if_pos (by decide : (("W" : String) = "S" ∨ ("W" : String) = "W"))]

/-- Witness for C3 at the sample latitude string `"4807.038"`. -/
theorem convert_hemisphere_sign_witness :
    (∃ v, convert_nmea_coord ⟨['4', '8', '0', '7'] ++ '.' :: ['0', '3', '8']⟩ "N" =
        some v ∧ 0 ≤ v) ∧
    (∃ v, convert_nmea_coord ⟨['4', '8', '0', '7'] ++ '.' :: ['0', '3', '8']⟩ "E" =
        some v ∧ 0 ≤ v) ∧
    (∃ v, convert_nmea_coord ⟨['4', '8', '0', '7'] ++ '.' :: ['0', '3', '8']⟩ "S" =
        some v ∧ v ≤ 0) ∧
    (∃ v, convert_nmea_coord ⟨['4', '8', '0', '7'] ++ '.' :: ['0', '3', '8']⟩ "W" =
        some v ∧ v ≤ 0) :=
  convert_hemisphere_sign ['4', '8', '0', '7'] ['0', '3', '8'] (by decide)
    (by decide) (by decide)

/-- C4: the converter returns a value exactly when neither argument is
empty, the magnitude splits on the decimal point into exactly two parts,
and every `float()` parse of the selected pieces succeeds; in all other
cases it returns `None`.  No exception reaches the caller: the Python
`except (ValueError, IndexError, TypeError)` covers every failure of the
body (only `float()` can raise there), which the total model reflects. -/
theorem convert_none_characterization (raw dir : String) :
    (convert_nmea_coord raw dir).isSome = true ↔
      (raw.data ≠ [] ∧ dir.data ≠ [] ∧
        ∃ p0 p1, splitOnSep '.' raw.data = [p0, p1] ∧
          (if 2 < p0.length then
            (pyFloat (p0.take (p0.length - 2))).isSome = true ∧
            (pyFloat (p0.drop (p0.length - 2) ++ '.' :: p1)).isSome = true
          else
            (pyFloat p0).isSome = true ∧
            (pyFloat ('0' :: '.' :: p1)).isSome = true)) := by
  unfold convert_nmea_coord
  by_cases h0 : raw.data = [] ∨ dir.data = []
  · rw [if_pos h0]
    simp only [Option.isSome_none, Bool.false_eq_true, false_iff]
    rintro ⟨h1, h2, -⟩
    rcases h0 with h0 | h0
    · exact h1 h0
    · exact h2 h0
  · rw [if_neg h0]
    push_neg at h0
    rcases hs : splitOnSep '.' raw.data with - | ⟨p0, - | ⟨p1, - | ⟨p2, rest⟩⟩⟩
    · exact absurd hs (splitOnSep_ne_nil '.' raw.data)
    · simp [hs]
    · constructor
      · intro hsome
        refine ⟨h0.1, h0.2, p0, p1, rfl, ?_⟩
        by_cases hl : 2 < p0.length
        · rw [if_pos hl]
          cases hA : pyFloat (p0.take (p0.length - 2)) <;>
            cases hB : pyFloat (p0.drop (p0.length - 2) ++ '.' :: p1) <;>
              simp [hA, hB, hl] at hsome ⊢
        · rw [if_neg hl]
          cases hA : pyFloat p0 <;>
            cases hB : pyFloat ('0' :: '.' :: p1) <;>
              simp [hA, hB, hl] at hsome ⊢
      · rintro ⟨-, -, a, b, hab, hc⟩
        simp only [List.cons.injEq, and_true] at hab
        obtain ⟨rfl, rfl⟩ := hab
        by_cases hl : 2 < p0.length
        · rw [if_pos hl] at hc
          obtain ⟨xa, hA⟩ := Option.isSome_iff_exists.mp hc.1
          obtain ⟨xb, hB⟩ := Option.isSome_iff_exists.mp hc.2
          simp [hl, hA, hB]
        · rw [if_neg hl] at hc
          obtain ⟨xa, hA⟩ := Option.isSome_iff_exists.mp hc.1
          obtain ⟨xb, hB⟩ := Option.isSome_iff_exists.mp hc.2
          simp [hl, hA, hB]
    · simp [hs]

/-- Counterexample to C5: the pre-sign magnitude is not always within
[0, 180].  `"99999.0"` (five integer digits) yields 999 + 99/60 > 180, and
the signed string `"-1.5"`, accepted by `float()`, yields a negative
pre-sign magnitude (hemisphere N applies no negation in either case). -/
theorem magnitude_bound_counterexample :
    (convert_nmea_coord "99999.0" "N" = some (20013 / 20) ∧
      ¬ ((20013 : ℚ) / 20 ≤ 180)) ∧
    (convert_nmea_coord "-1.5" "N" = some (-(119 / 120)) ∧
      ¬ ((0 : ℚ) ≤ -(119 / 120))) := by
  refine ⟨⟨?_, by norm_num⟩, ?_, by norm_num⟩ <;>
    · simp +decide [convert_nmea_coord, splitOnSep, pyFloat, pyFloatCore,
        allDigits, isDigitCh, natOfDigits, fracOfDigits, charVal]
      norm_num

/-- C5 as amended: for an all-digit magnitude string with one decimal
point, the converted magnitude before sign application is at least 0; it is
at most 180 provided the integer part has at most 4 digits (the DDMM
latitude shape).  The unamended bound fails for 5-digit integer parts and
for signed strings, per the counterexample. -/
theorem magnitude_bound_amended (p0 p1 : List Char) (v : ℚ)
    (h0 : allDigits p0 = true) (h1 : allDigits p1 = true)
    (hv : convert_nmea_coord ⟨p0 ++ '.' :: p1⟩ "N" = some v) :
    0 ≤ v ∧ (p0.length ≤ 4 → v ≤ 180) := by
  have h := convert_nmea_coord_digits p0 p1 "N" h0 h1 (by decide)
  by_cases hne : p0 = []
  · rw [if_pos hne] at h
    rw [h] at hv
    cases hv
  · rw [if_neg hne,
      if_neg (by decide : ¬ (("N" : String) = "S" ∨ ("N" : String) = "W"))] at h
    rw [h] at hv
    obtain rfl : nmeaMagnitude p0 p1 = v := Option.some.inj hv
    have hfr0 := fracOfDigits_nonneg p1
    have hfr1 := fracOfDigits_lt_one h1
    constructor
    · unfold nmeaMagnitude
      split
      · exact add_nonneg (Nat.cast_nonneg _)
          (div_nonneg (add_nonneg (Nat.cast_nonneg _) (fracOfDigits_nonneg p1))
            (by norm_num))
      · exact add_nonneg (Nat.cast_nonneg _)
          (div_nonneg (fracOfDigits_nonneg p1) (by norm_num))
    · intro hlen4
      unfold nmeaMagnitude
      by_cases hl : 2 < p0.length
      · rw [if_pos hl]
        have htl : (p0.take (p0.length - 2)).length ≤ 2 := by
          rw [List.length_take]
          omega
        have hdl : (p0.drop (p0.length - 2)).length ≤ 2 := by
          rw [List.length_drop]
          omega
        have hta := natOfDigits_lt (allDigits_take (p0.length - 2) h0)
        have hda := natOfDigits_lt (allDigits_drop (p0.length - 2) h0)
        have hta2 : natOfDigits (p0.take (p0.length - 2)) < 100 := by
          calc natOfDigits (p0.take (p0.length - 2))
              < 10 ^ (p0.take (p0.length - 2)).length := hta
            _ ≤ 10 ^ 2 := Nat.pow_le_pow_right (by norm_num) htl
            _ = 100 := by norm_num
        have hda2 : natOfDigits (p0.drop (p0.length - 2)) < 100 := by
          calc natOfDigits (p0.drop (p0.length - 2))
              < 10 ^ (p0.drop (p0.length - 2)).length := hda
            _ ≤ 10 ^ 2 := Nat.pow_le_pow_right (by norm_num) hdl
            _ = 100 := by norm_num
        have hq1 : (natOfDigits (p0.take (p0.length - 2)) : ℚ) ≤ 99 := by
          exact_mod_cast Nat.lt_succ_iff.mp hta2
        have hq2 : (natOfDigits (p0.drop (p0.length - 2)) : ℚ) ≤ 99 := by
          exact_mod_cast Nat.lt_succ_iff.mp hda2
        linarith
      · rw [if_neg hl]
        have hta := natOfDigits_lt h0
        have hta2 : natOfDigits p0 < 100 := by
          calc natOfDigits p0 < 10 ^ p0.length := hta
            _ ≤ 10 ^ 2 := Nat.pow_le_pow_right (by norm_num) (by omega)
            _ = 100 := by norm_num
        have hq1 : (natOfDigits p0 : ℚ) ≤ 99 := by
          exact_mod_cast Nat.lt_succ_iff.mp hta2
        linarith

/-- Witness for the amended C5 at the sample latitude string `"4807.038"`. -/
theorem magnitude_bound_amended_witness :
    0 ≤ (481173 / 10000 : ℚ) ∧
      ((['4', '8', '0', '7'] : List Char).length ≤ 4 → (481173 / 10000 : ℚ) ≤ 180) :=
  magnitude_bound_amended ['4', '8', '0', '7'] ['0', '3', '8'] (481173 / 10000)
    (by decide) (by decide)
    (by
      show convert_nmea_coord "4807.038" "N" = _
      exact convert_sample_lat)

/-- C6: a classified GGA sentence with fewer than 15 comma-separated fields
is rejected with a warning carrying the raw line; no fix record, no JSON
message, no CSV append, the state is unchanged, no exception escapes, and
the remaining lines are processed from the same state. -/
theorem short_line_rejected (serialFlag recordFlag : Bool) (now : ℚ)
    (st : PipeState) (line : String)
    (hpre : ("$GNGGA".data.isPrefixOf line.data ||
      "$GPGGA".data.isPrefixOf line.data) = true)
    (hlen : (splitOnSep ',' line.data).length < 15) :
    processLine serialFlag recordFlag now st line =
      ⟨Outcome.shortLine, none, false, [LogEvent.warnIncomplete line], st, false⟩ ∧
    ∀ ls, runLines serialFlag recordFlag now st (line :: ls) =
      ((runLines serialFlag recordFlag now st ls).1,
        ⟨Outcome.shortLine, none, false, [LogEvent.warnIncomplete line], st, false⟩ ::
          (runLines serialFlag recordFlag now st ls).2) := by
  have hmain : processLine serialFlag recordFlag now st line =
      ⟨Outcome.shortLine, none, false, [LogEvent.warnIncomplete line], st, false⟩ := by
    simp only [processLine, hpre, if_true]
    rw [if_neg (by omega : ¬ 15 ≤ (splitOnSep ',' line.data).length)]
  exact ⟨hmain, fun ls => by simp [runLines, hmain]⟩

/-- Witness for C6 at the truncated sentence `$GNGGA,123519`. -/
theorem short_line_rejected_witness :
    processLine true true 0 ⟨true, ⟨some [CsvLine.header], true, true⟩⟩
        "$GNGGA,123519" =
      ⟨Outcome.shortLine, none, false, [LogEvent.warnIncomplete "$GNGGA,123519"],
        ⟨true, ⟨some [CsvLine.header], true, true⟩⟩, false⟩ ∧
    runLines true true 0 ⟨true, ⟨some [CsvLine.header], true, true⟩⟩
        ["$GNGGA,123519"] =
      (⟨true, ⟨some [CsvLine.header], true, true⟩⟩,
        [⟨Outcome.shortLine, none, false, [LogEvent.warnIncomplete "$GNGGA,123519"],
          ⟨true, ⟨some [CsvLine.header], true, true⟩⟩, false⟩]) := by
  have h := short_line_rejected true true 0
    ⟨true, ⟨some [CsvLine.header], true, true⟩⟩ "$GNGGA,123519" (by decide) (by decide)
  refine ⟨h.1, ?_⟩
  simpa [runLines] using h.2 []

/-- Counterexample to C7: with both sinks enabled and a healthy file system,
a failing stdout write (the JSON sink) prevents the CSV sink from executing
for that record — nothing is appended and the exception reaches the outer
handler — while the identical input with healthy stdout does append. -/
theorem sink_independence_counterexample :
    (processLine true true 0 ⟨false, ⟨some [CsvLine.header], true, true⟩⟩
        sampleLine).csvAppended = false ∧
    (processLine true true 0 ⟨false, ⟨some [CsvLine.header], true, true⟩⟩
        sampleLine).state.fs.file = some [CsvLine.header] ∧
    (processLine true true 0 ⟨false, ⟨some [CsvLine.header], true, true⟩⟩
        sampleLine).outerException = true ∧
    (processLine true true 0 ⟨true, ⟨some [CsvLine.header], true, true⟩⟩
        sampleLine).csvAppended = true := by
  rw [processLine_stdout_fail true 0 _ sampleLine 1 8 (9 / 10) (2727 / 5)
      (481173 / 10000) (691 / 60) (by decide) (by decide) sampleLine_fields
      sampleLine_lat sampleLine_lon rfl,
    processLine_fix true true 0 _ sampleLine 1 8 (9 / 10) (2727 / 5)
      (481173 / 10000) (691 / 60) (by decide) (by decide) sampleLine_fields
      sampleLine_lat sampleLine_lon rfl]
  refine ⟨rfl, rfl, rfl, ?_⟩
  simp [csvAppend]

/-- C7 as amended: sink independence holds in one direction only.  A CSV
append failure never affects the JSON emission (the JSON sink has already
run when the append is attempted), but a stdout-write failure skips the CSV
append for that record (the counterexample). -/
theorem sink_independence_amended (serialFlag recordFlag : Bool) (now : ℚ)
    (fs : FS) (line : String) :
    (processLine serialFlag recordFlag now ⟨true, { fs with appendOk := false }⟩
        line).json =
      (processLine serialFlag recordFlag now ⟨true, { fs with appendOk := true }⟩
        line).json ∧
    (processLine true recordFlag now ⟨false, fs⟩ line).csvAppended = false := by
  constructor
  · simp only [processLine]
    repeat' split <;> try rfl
  · simp only [processLine]
    repeat' split <;> try rfl

/-- C8: when the CSV append raises a storage error, the pipeline logs the
error, re-runs `ensure_file_exists` (recreating the file with its header if
missing), logs a second error exactly when that recreation also fails, does
not re-append the failed row, and the loop continues: with stdout healthy no
exception reaches the outer handler. -/
theorem csv_write_failure_recovery (fs : FS) (r : CsvRow)
    (h : fs.appendOk = false) :
    (csvAppend fs r).appended = false ∧
    (csvAppend fs r).fs = (ensure_file_exists fs).fs ∧
    (csvAppend fs r).events =
      LogEvent.csvWriteError :: ((ensure_file_exists fs).events ++
        if (ensure_file_exists fs).ok then [] else [LogEvent.csvRecreateError]) ∧
    ((csvAppend fs r).fs.file = fs.file ∨
      (csvAppend fs r).fs.file = some [CsvLine.header]) ∧
    (∀ (serialFlag recordFlag : Bool) (now : ℚ) (st : PipeState) (line : String),
      st.stdoutOk = true →
        (processLine serialFlag recordFlag now st line).outerException = false) := by
  have hc : csvAppend fs r = ⟨(ensure_file_exists fs).fs, false,
      LogEvent.csvWriteError :: ((ensure_file_exists fs).events ++
        if (ensure_file_exists fs).ok then [] else [LogEvent.csvRecreateError])⟩ := by
    simp only [csvAppend, h, Bool.false_eq_true, if_false]
  refine ⟨by rw [hc], by rw [hc], by rw [hc], ?_, ?_⟩
  · rw [hc]
    unfold ensure_file_exists
    rcases hfile : fs.file with - | ls
    · by_cases hcr : fs.createOk = true
      · simp [hcr]
      · simp [hcr, hfile]
    · simp [hfile]
  · intro serialFlag recordFlag now st line hstd
    simp only [processLine, hstd, Bool.not_true, Bool.and_false]
    repeat' split <;> try rfl
    all_goals simp_all

/-- Witness for C8: append failure on an existing file. -/
theorem csv_write_failure_recovery_witness :
    (csvAppend ⟨some [CsvLine.header], false, true⟩ ⟨0, 0, 0, 0, 0, 0, 0⟩).appended
        = false ∧
    (csvAppend ⟨some [CsvLine.header], false, true⟩ ⟨0, 0, 0, 0, 0, 0, 0⟩).fs =
      (ensure_file_exists ⟨some [CsvLine.header], false, true⟩).fs ∧
    (csvAppend ⟨some [CsvLine.header], false, true⟩ ⟨0, 0, 0, 0, 0, 0, 0⟩).events =
      LogEvent.csvWriteError ::
        ((ensure_file_exists ⟨some [CsvLine.header], false, true⟩).events ++
          if (ensure_file_exists ⟨some [CsvLine.header], false, true⟩).ok then []
          else [LogEvent.csvRecreateError]) ∧
    ((csvAppend ⟨some [CsvLine.header], false, true⟩ ⟨0, 0, 0, 0, 0, 0, 0⟩).fs.file =
        (⟨some [CsvLine.header], false, true⟩ : FS).file ∨
      (csvAppend ⟨some [CsvLine.header], false, true⟩ ⟨0, 0, 0, 0, 0, 0, 0⟩).fs.file =
        some [CsvLine.header]) ∧
    (processLine true true 0 ⟨true, ⟨some [CsvLine.header], false, true⟩⟩
        sampleLine).outerException = false := by
  have h := csv_write_failure_recovery ⟨some [CsvLine.header], false, true⟩
    ⟨0, 0, 0, 0, 0, 0, 0⟩ rfl
  exact ⟨h.1, h.2.1, h.2.2.1, h.2.2.2.1,
    h.2.2.2.2 true true 0 ⟨true, ⟨some [CsvLine.header], false, true⟩⟩ sampleLine rfl⟩

/-- C9: the header is written exactly once, at file creation.
`ensure_file_exists` on an existing file succeeds without inspecting or
changing its content, a successful append only appends, and creation of a
missing file writes exactly the header. -/
theorem header_written_once (fs : FS) (ls : List CsvLine) (h : fs.file = some ls) :
    ensure_file_exists fs = ⟨fs, true, [LogEvent.infoExistingFile]⟩ ∧
    (∀ r, fs.appendOk = true →
      (csvAppend fs r).fs.file = some (ls ++ [CsvLine.row r])) ∧
    (∀ fs2 : FS, fs2.file = none → fs2.createOk = true →
      (ensure_file_exists fs2).fs.file = some [CsvLine.header]) := by
  refine ⟨?_, ?_, ?_⟩
  · simp [ensure_file_exists, h]
  · intro r hap
    simp [csvAppend, hap, h]
  · intro fs2 h2 hc
    simp [ensure_file_exists, h2, hc]

/-- Witness for C9 on a file holding the header and one row. -/
theorem header_written_once_witness :
    ensure_file_exists ⟨some [CsvLine.header, CsvLine.row ⟨0, 0, 0, 0, 0, 0, 0⟩], true, true⟩ =
      ⟨⟨some [CsvLine.header, CsvLine.row ⟨0, 0, 0, 0, 0, 0, 0⟩], true, true⟩, true,
        [LogEvent.infoExistingFile]⟩ ∧
    (∀ r, (⟨some [CsvLine.header, CsvLine.row ⟨0, 0, 0, 0, 0, 0, 0⟩], true, true⟩ : FS).appendOk = true →
      (csvAppend ⟨some [CsvLine.header, CsvLine.row ⟨0, 0, 0, 0, 0, 0, 0⟩], true, true⟩ r).fs.file =
        some ([CsvLine.header, CsvLine.row ⟨0, 0, 0, 0, 0, 0, 0⟩] ++ [CsvLine.row r])) ∧
    (∀ fs2 : FS, fs2.file = none → fs2.createOk = true →
      (ensure_file_exists fs2).fs.file = some [CsvLine.header]) :=
  header_written_once ⟨some [CsvLine.header, CsvLine.row ⟨0, 0, 0, 0, 0, 0, 0⟩], true, true⟩
    [CsvLine.header, CsvLine.row ⟨0, 0, 0, 0, 0, 0, 0⟩] rfl

/-- C10: record production is not gated on fix quality.  For a classified
sentence with at least 15 fields whose numeric fields parse and whose two
coordinates convert to non-null values, with both sinks enabled and
healthy, a fix record carrying the parsed quality (whatever its value,
including 0) is assembled, the JSON message is emitted and a CSV row is
appended; no exception escapes. -/
theorem no_quality_gate (now : ℚ) (st : PipeState) (line : String)
    (gq ns : ℤ) (hd al la lo : ℚ)
    (hpre : ("$GNGGA".data.isPrefixOf line.data ||
      "$GPGGA".data.isPrefixOf line.data) = true)
    (hlen : 15 ≤ (splitOnSep ',' line.data).length)
    (hf : parseGGAFields (splitOnSep ',' line.data) = some (gq, ns, hd, al))
    (hla : convert_nmea_coord ⟨(splitOnSep ',' line.data).getD 2 []⟩
        ⟨(splitOnSep ',' line.data).getD 3 []⟩ = some la)
    (hlo : convert_nmea_coord ⟨(splitOnSep ',' line.data).getD 4 []⟩
        ⟨(splitOnSep ',' line.data).getD 5 []⟩ = some lo)
    (hstd : st.stdoutOk = true) (hap : st.fs.appendOk = true) :
    (processLine true true now st line).outcome =
      Outcome.fix ⟨now, la, lo, al, ns, gq, hd⟩ ∧
    (processLine true true now st line).json =
      some (mkGpsMsg now la lo al ns gq hd) ∧
    (processLine true true now st line).csvAppended = true ∧
    (processLine true true now st line).outerException = false := by
  rw [processLine_fix true true now st line gq ns hd al la lo hpre hlen hf hla
    hlo hstd]
  refine ⟨rfl, rfl, ?_, rfl⟩
  cases hfile : st.fs.file <;> simp [csvAppend, hap, hfile]

/-- Witness for C10 at the sample sentence with fix quality 0. -/
theorem no_quality_gate_witness :
    (processLine true true 0 ⟨true, ⟨some [CsvLine.header], true, true⟩⟩
        sampleLineQ0).outcome =
      Outcome.fix ⟨0, 481173 / 10000, 691 / 60, 2727 / 5, 8, 0, 9 / 10⟩ ∧
    (processLine true true 0 ⟨true, ⟨some [CsvLine.header], true, true⟩⟩
        sampleLineQ0).json =
      some (mkGpsMsg 0 (481173 / 10000) (691 / 60) (2727 / 5) 8 0 (9 / 10)) ∧
    (processLine true true 0 ⟨true, ⟨some [CsvLine.header], true, true⟩⟩
        sampleLineQ0).csvAppended = true ∧
    (processLine true true 0 ⟨true, ⟨some [CsvLine.header], true, true⟩⟩
        sampleLineQ0).outerException = false :=
  no_quality_gate 0 ⟨true, ⟨some [CsvLine.header], true, true⟩⟩ sampleLineQ0
    0 8 (9 / 10) (2727 / 5) (481173 / 10000) (691 / 60) (by decide) (by decide)
    sampleLineQ0_fields sampleLineQ0_lat sampleLineQ0_lon rfl rfl

end GPStest
